import Mathlib

/-!
Verification development for the solana-narrative-tracker pipeline.

The Python sources are embedded shallowly:

* numbers are exact rationals (`Q`, an unnormalized `Int`/`Nat` fraction, so
  that all arithmetic reduces in the kernel); the collectors round every
  percentage with Python `round(x, 2)` (round half to even), which is
  modelled by `roundHalfEven` / `round2`;
* Python `str.format` specifications used by the digest (`:,.0f`, `:+.1f`,
  `:.1f`, `:,.2f`, `:.4f`) are modelled by the `fmt*` functions;
* Python `str.split` / `in` / `lower` / `replace` are modelled by
  structurally recursive functions over `List Char` (`pySplit`,
  `containsSub`, `pyLower`, `pyReplace`);
* JSON values decoded from upstream responses are modelled by `Val`;
  fallible dictionary/list accesses (which raise `KeyError` / `TypeError` /
  `AttributeError` / `ZeroDivisionError` in Python) are modelled in the
  `Except String` monad.
-/

/-- Exact rational numbers without normalization: `num / den`.  All
operations are plain cross-multiplication, so every computation reduces by
`rfl`/`decide`.  Well-formed values have `den ≠ 0`; the embedded code only
divides after the same zero-checks the Python source would trip on. -/
structure Q where
  num : Int
  den : Nat
deriving DecidableEq, Repr

/-- Embed an integer. -/
def Q.ofInt (n : Int) : Q := ⟨n, 1⟩

instance : OfNat Q n := ⟨Q.ofInt n⟩

def Q.add (a b : Q) : Q := ⟨a.num * b.den + b.num * a.den, a.den * b.den⟩

def Q.sub (a b : Q) : Q := ⟨a.num * b.den - b.num * a.den, a.den * b.den⟩

def Q.mul (a b : Q) : Q := ⟨a.num * b.num, a.den * b.den⟩

/-- Division; moves the sign of the divisor into the numerator so the
denominator stays a `Nat`.  Division by zero yields denominator 0 and is
never reached: the embedding checks for `ZeroDivisionError` first, as the
Python source would raise there. -/
def Q.div (a b : Q) : Q :=
  ⟨a.num * b.den * (if b.num < 0 then -1 else 1), a.den * b.num.natAbs⟩

/-- Floor (uses `Int.fdiv`, which rounds toward negative infinity). -/
def Q.floor (a : Q) : Int := a.num.fdiv a.den

/-- Strict comparison by cross-multiplication (denominators positive). -/
def Q.lt (a b : Q) : Bool := a.num * b.den < b.num * a.den

def Q.le (a b : Q) : Bool := a.num * b.den ≤ b.num * a.den

def Q.isNeg (a : Q) : Bool := a.num < 0

def Q.isZero (a : Q) : Bool := a.num == 0

def Q.qabs (a : Q) : Q := ⟨(a.num.natAbs : Int), a.den⟩

/-- Python `round()` to an integer: round half to even, as the CPython
`round` builtin and `format` both do. -/
def roundHalfEven (x : Q) : Int :=
  let f := x.floor
  let r := x.sub (Q.ofInt f)
  if r.lt ⟨1, 2⟩ then f
  else if Q.lt ⟨1, 2⟩ r then f + 1
  else if f % 2 = 0 then f else f + 1

/-- Python `round(x, 2)` on the exact value. -/
def round2 (x : Q) : Q :=
  (Q.ofInt (roundHalfEven (x.mul (Q.ofInt 100)))).div (Q.ofInt 100)

/-- Insert a thousands separator every three digits, as the `,` format
option does: `commaGroupChars` works on the reversed digit list. -/
def commaGroupChars : List Char → List Char
  | a :: b :: c :: d :: rest => a :: b :: c :: ',' :: commaGroupChars (d :: rest)
  | l => l

def commaGroup (n : Nat) : String :=
  String.mk (commaGroupChars (toString n).data.reverse).reverse

/-- Python `f"{x:,.0f}"`: round half to even to an integer, thousands
separators, and a sign taken from the value (so `-0.4` renders `-0`). -/
def fmtMoney0 (x : Q) : String :=
  let n := roundHalfEven x
  (if n < 0 ∨ (n = 0 ∧ x.isNeg) then "-" else "") ++ commaGroup n.natAbs

/-- Python `f"{x:+.1f}"`: one decimal digit, explicit sign. -/
def fmtSigned1 (x : Q) : String :=
  let n := roundHalfEven (x.mul (Q.ofInt 10))
  (if n < 0 ∨ (n = 0 ∧ x.isNeg) then "-" else "+")
    ++ toString (n.natAbs / 10) ++ "." ++ toString (n.natAbs % 10)

/-- Python `f"{x:.1f}"`: one decimal digit, sign only when negative. -/
def fmt1 (x : Q) : String :=
  let n := roundHalfEven (x.mul (Q.ofInt 10))
  (if n < 0 ∨ (n = 0 ∧ x.isNeg) then "-" else "")
    ++ toString (n.natAbs / 10) ++ "." ++ toString (n.natAbs % 10)

/-- Left-pad a decimal string with zeros to width `w`. -/
def zeroPad (w : Nat) (s : String) : String :=
  if s.length < w then String.mk (List.replicate (w - s.length) '0') ++ s else s

/-- Python `f"{x:,.2f}"`: two decimals with thousands separators. -/
def fmtMoney2 (x : Q) : String :=
  let n := roundHalfEven (x.mul (Q.ofInt 100))
  (if n < 0 ∨ (n = 0 ∧ x.isNeg) then "-" else "")
    ++ commaGroup (n.natAbs / 100) ++ "." ++ zeroPad 2 (toString (n.natAbs % 100))

/-- Python `f"{x:.4f}"`: four decimals, no separators. -/
def fmt4 (x : Q) : String :=
  let n := roundHalfEven (x.mul (Q.ofInt 10000))
  (if n < 0 ∨ (n = 0 ∧ x.isNeg) then "-" else "")
    ++ toString (n.natAbs / 10000) ++ "." ++ zeroPad 4 (toString (n.natAbs % 10000))

/-- Whether `pat` is an initial segment of `l` (helper for substring
search). -/
def leadsWith : List Char → List Char → Bool
  | [], _ => true
  | _ :: _, [] => false
  | a :: as, b :: bs => a == b && leadsWith as bs

/-- Find the first occurrence of `sep` in `l`: returns the characters
before it and the characters after it. -/
def findSplit (sep : List Char) : List Char → Option (List Char × List Char)
  | [] => none
  | c :: rest =>
    if leadsWith sep (c :: rest) then some ([], (c :: rest).drop sep.length)
    else
      match findSplit sep rest with
      | some (pre, suf) => some (c :: pre, suf)
      | none => none

/-- Python `sub in s` for a nonempty substring `sub`. -/
def containsSub (s sub : String) : Bool :=
  (findSplit sub.data s.data).isSome

/-- Fuelled splitting worker (fuel `≥ length + 1` always suffices for a
nonempty separator, each occurrence consumes at least one character). -/
def splitOnFuel (sep : List Char) : Nat → List Char → List (List Char)
  | 0, l => [l]
  | fuel + 1, l =>
    match findSplit sep l with
    | none => [l]
    | some (pre, suf) => pre :: splitOnFuel sep fuel suf

/-- Python `s.split(sep)` for a nonempty separator. -/
def pySplit (s sep : String) : List String :=
  (splitOnFuel sep.data (s.data.length + 1) s.data).map String.mk

/-- Python `s.lower()` (ASCII case folding suffices for the embedded
keyword checks). -/
def pyLower (s : String) : String :=
  String.mk (s.data.map Char.toLower)

/-- Join a list of strings with a separator (helper for `pyReplace`). -/
def joinWith (sep : String) : List String → String
  | [] => ""
  | [a] => a
  | a :: b :: rest => a ++ sep ++ joinWith sep (b :: rest)

/-- Python `s.replace(old, new)` for a nonempty `old`. -/
def pyReplace (s old new : String) : String :=
  joinWith new (pySplit s old)

/-- JSON-like values decoded from upstream HTTP responses
(`resp.json()` in the collectors). -/
inductive Val where
  | null
  | bool (b : Bool)
  | num (q : Q)
  | str (s : String)
  | list (xs : List Val)
  | dict (fields : List (String × Val))

/-- Python truthiness: `None`, `False`, `0`, `""`, `[]`, and a dict with
no keys are falsy. -/
def Val.truthy : Val → Bool
  | .null => false
  | .bool b => b
  | .num q => !(q.num == 0)
  | .str s => !s.isEmpty
  | .list xs => !xs.isEmpty
  | .dict f => !f.isEmpty

/-- Python `d[k]`: `KeyError` on a missing key, `TypeError` when the value
is not a dict. -/
def Val.getItem (v : Val) (k : String) : Except String Val :=
  match v with
  | .dict f =>
    match f.lookup k with
    | some x => .ok x
    | none => .error ("KeyError: " ++ k)
  | _ => .error ("TypeError: not subscriptable with key " ++ k)

/-- Python `d.get(k)`: `None` on a missing key, `AttributeError` when the
value is not a dict. -/
def Val.getOpt (v : Val) (k : String) : Except String Val :=
  match v with
  | .dict f => .ok ((f.lookup k).getD Val.null)
  | _ => .error ("AttributeError: no method get, key " ++ k)

/-- Python `d.get(k, default)`. -/
def Val.getOr (v : Val) (k : String) (d : Val) : Except String Val :=
  match v with
  | .dict f => .ok ((f.lookup k).getD d)
  | _ => .error ("AttributeError: no method get, key " ++ k)

/-- Python `x or y`. -/
def pyOr (v d : Val) : Val := if v.truthy then v else d

/-- A numeric operand; anything else raises `TypeError` in the arithmetic
the collectors perform. -/
def Val.asNum : Val → Except String Q
  | .num q => .ok q
  | _ => .error "TypeError: unsupported operand type"

def Val.asStr : Val → Except String String
  | .str s => .ok s
  | _ => .error "TypeError: expected str"

def Val.asList : Val → Except String (List Val)
  | .list xs => .ok xs
  | _ => .error "TypeError: expected list"

/-- Equality test used by Python `in` / `==` at the places the collectors
compare values.  Every comparison in the source compares an atom (a string
such as "Solana") against decoded values, so composite values may safely
compare unequal. -/
def atomEq (a b : Val) : Bool :=
  match a, b with
  | .null, .null => true
  | .bool x, .bool y => x == y
  | .num x, .num y => x.num * y.den == y.num * x.den
  | .str x, .str y => x == y
  | _, _ => false

/-- Python `x in container` for the container shapes the collectors meet:
membership for lists, substring for strings, key membership for dicts. -/
def Val.hasMember (container x : Val) : Except String Bool :=
  match container with
  | .list xs => .ok (xs.any (atomEq x))
  | .str s =>
    match x with
    | .str t => .ok (containsSub s t)
    | _ => .error "TypeError: in requires string as left operand"
  | .dict f =>
    match x with
    | .str k => .ok (f.any (fun kv => kv.1 == k))
    | _ => .error "TypeError: unhashable key"
  | _ => .error "TypeError: argument is not iterable"

/-- Python `str(v)` as used on platform values in the market collector
(strings render as themselves; composites are approximated by a constant,
which only weakens a substring test on exotic shapes). -/
def strOfVal : Val → String
  | .str s => s
  | .bool true => "True"
  | .bool false => "False"
  | .null => "None"
  | .num q => toString q.num
  | _ => ""

/-- Python `d.values()` for dicts. -/
def Val.valuesOf (v : Val) : Except String (List Val) :=
  match v with
  | .dict f => .ok (f.map Prod.snd)
  | _ => .error "AttributeError: no method values"

/-- Stable insertion of `x` in front of the first element whose key is not
larger, giving Python `list.sort(key=..., reverse=True)` (descending,
stable) when folded from the right. -/
def insertDescBy (key : α → Q) (x : α) : List α → List α
  | [] => [x]
  | y :: ys => if Q.le (key y) (key x) then x :: y :: ys else y :: insertDescBy key x ys

/-- Python `list.sort(key=key, reverse=True)`: stable descending sort. -/
def sortDescBy (key : α → Q) (l : List α) : List α :=
  l.foldr (insertDescBy key) []

/-- Python dict update `d[k] = v`: replace in place if the key exists,
append otherwise. -/
def setKey : List (String × Val) → String → Val → List (String × Val)
  | [], k, v => [(k, v)]
  | (k1, v1) :: rest, k, v =>
    if k1 = k then (k, v) :: rest else (k1, v1) :: setKey rest k v

/-- TVL record produced by `onchain.get_solana_tvl_history` on success
(src/collectors/onchain.py lines 31-38). -/
structure TvlRecord where
  current_tvl : Q
  tvl_14d_ago : Q
  tvl_30d_ago : Q
  change_14d_pct : Q
  change_30d_pct : Q
  data_points : List (Q × Q)
deriving DecidableEq, Repr

/-- Protocol entity produced by `onchain.get_top_protocols`
(onchain.py lines 53-64). -/
structure Protocol where
  name : String
  category : String
  tvl : Q
  change_1d : Q
  change_7d : Q
  chains : List String
  url : String
deriving DecidableEq, Repr

/-- Yield-pool entity produced by `onchain.get_yield_opportunities`
(onchain.py lines 78-89). -/
structure YieldPool where
  pool : String
  project : String
  symbol : String
  tvl_usd : Q
  apy : Q
  apy_mean_30d : Q
  apy_change_7d : Q
deriving DecidableEq, Repr

/-- Stablecoin entity produced by `onchain.get_stablecoin_flows`
(onchain.py lines 104-108). -/
structure Stablecoin where
  name : String
  symbol : String
  circulating_on_solana : Q
deriving DecidableEq, Repr

/-- Network record produced by `onchain.get_network_performance` on
success (onchain.py lines 125-128). -/
structure NetworkPerf where
  avg_tps : Int
  samples : Nat
deriving DecidableEq, Repr

/-- The onchain CategoryRecord (onchain.py lines 136-143).  `none` in the
`tvl`, `stablecoins` and `network` fields stands for the `error`-marked
dict those helpers return on an upstream failure. -/
structure OnchainRecord where
  tvl : Option TvlRecord
  top_protocols : List Protocol
  yields : List YieldPool
  stablecoins : Option (List Stablecoin)
  network : Option NetworkPerf
  collected_at : String
deriving Repr

/-- Repository entity produced by `github_signals._search_repos`
(github_signals.py lines 30-45). -/
structure Repo where
  name : String
  description : String
  stars : Int
  forks : Int
  language : Option String
  created_at : String
  updated_at : String
  pushed_at : String
  url : String
  topics : List String
  open_issues : Int
deriving DecidableEq, Repr

/-- Topic summary produced by `github_signals.get_ecosystem_topics`
(github_signals.py lines 90-95). -/
structure TopicSummary where
  topic : String
  repo_count : Nat
  top_repos : List Repo
  total_stars : Int
deriving DecidableEq, Repr

/-- The developer CategoryRecord, stored under the key "github"
(github_signals.py lines 103-109). -/
structure GithubRecord where
  trending_new : List Repo
  most_active : List Repo
  high_star : List Repo
  ecosystem_topics : List TopicSummary
  collected_at : String
deriving Repr

/-- SOL price record produced by `market.get_sol_price_data` on success
(market.py lines 64-74).  `price_usd`, `market_cap`, `volume_24h` and
`ath` are stored by bare `dict.get` chains and are therefore `None`
(`none`) when the provider omits the key; the `change_*` fields go
through `round(... or 0, 2)` and are always numbers. -/
structure SolData where
  price_usd : Option Q
  market_cap : Option Q
  volume_24h : Option Q
  change_24h : Q
  change_7d : Q
  change_14d : Q
  change_30d : Q
  ath : Option Q
  ath_change_pct : Q
deriving DecidableEq, Repr

/-- Ecosystem-token entity produced by `market.get_solana_ecosystem_tokens`
(market.py lines 37-52).  `price`, `market_cap`, `market_cap_rank` and
`volume_24h` are stored by bare `t.get(...)` and are therefore `None`
(`none`) when the provider omits or nulls the key; the `change_*` fields
go through `round(... or 0, 2)` and are always numbers. -/
structure Token where
  id : String
  symbol : String
  name : String
  price : Option Q
  market_cap : Option Q
  market_cap_rank : Option Q
  volume_24h : Option Q
  change_24h : Q
  change_7d : Q
  change_14d : Q
  change_30d : Q
deriving DecidableEq, Repr

/-- Trending-token entity produced by `market.get_trending_tokens`
(market.py lines 88-93). -/
structure TrendingToken where
  name : String
  symbol : String
  market_cap_rank : Option Q
  score : Option Q
deriving DecidableEq, Repr

/-- Category-performance entity produced by `market.get_defi_categories`
(market.py lines 110-116). -/
structure CategoryPerf where
  name : String
  market_cap : Option Q
  market_cap_change_24h : Q
  volume_24h : Option Q
  top_3_coins : List String
deriving DecidableEq, Repr

/-- The market CategoryRecord (market.py lines 124-129). -/
structure MarketRecord where
  sol : Option SolData
  ecosystem_tokens : List Token
  trending : List TrendingToken
  categories : List CategoryPerf
  collected_at : String
deriving Repr

/-- Article entity produced by `social._parse_rss` / `social._parse_atom`
(social.py lines 42-48 and 70-76). -/
structure Article where
  source : String
  title : String
  url : String
  published : String
  summary : String
deriving DecidableEq, Repr

/-- Governance entity produced by `social.get_governance_proposals`
(social.py lines 123-129). -/
structure Gov where
  title : String
  url : String
  created_at : String
  user : String
  labels : List String
deriving DecidableEq, Repr

/-- The social CategoryRecord (social.py lines 140-144). -/
structure SocialRecord where
  ecosystem_articles : List Article
  news_articles : List Article
  governance : List Gov
  collected_at : String
deriving Repr

/-- The SignalBundle assembled by `main.collect_all` (main.py lines 35-40):
the four category records plus the run timestamp. -/
structure SignalBundle where
  onchain : OnchainRecord
  github : GithubRecord
  market : MarketRecord
  social : SocialRecord
  collected_at : String
deriving Repr

namespace analyzer

/-- One protocol line of the digest (analyzer.py line 73). -/
def protocolLine (p : Protocol) : String :=
  "  " ++ p.name ++ " (" ++ p.category ++ "): TVL $" ++ fmtMoney0 p.tvl
    ++ ", 7d: " ++ fmtSigned1 p.change_7d ++ "%, 1d: " ++ fmtSigned1 p.change_1d ++ "%"

/-- The protocol sub-list: at most the top 15 protocols (line 72). -/
def protocolLines (l : List Protocol) : List String :=
  (l.take 15).map protocolLine

/-- One yield line of the digest (line 77). -/
def yieldLine (y : YieldPool) : String :=
  "  " ++ y.project ++ " " ++ y.symbol ++ ": APY " ++ fmt1 y.apy
    ++ "% (30d avg: " ++ fmt1 y.apy_mean_30d ++ "%), TVL $" ++ fmtMoney0 y.tvl_usd

/-- The yield sub-list: at most the top 10 pools (line 76). -/
def yieldLines (l : List YieldPool) : List String :=
  (l.take 10).map yieldLine

/-- The onchain section of the digest (lines 63-81).  A missing `tvl`
record renders through `dict.get(..., 0)` defaults. -/
def onchainParts (o : OnchainRecord) : List String :=
  ["## ONCHAIN SIGNALS",
   "Solana TVL: $" ++ fmtMoney0 ((o.tvl.map TvlRecord.current_tvl).getD 0),
   "  14d change: " ++ fmtSigned1 ((o.tvl.map TvlRecord.change_14d_pct).getD 0) ++ "%",
   "  30d change: " ++ fmtSigned1 ((o.tvl.map TvlRecord.change_30d_pct).getD 0) ++ "%",
   "\nTop protocols by TVL movement (7d):"]
  ++ protocolLines o.top_protocols
  ++ ["\nTop yield opportunities:"]
  ++ yieldLines o.yields
  ++ (match o.network with
      | some np => ["\nNetwork TPS (avg): " ++ toString np.avg_tps]
      | none => [])

/-- The line or pair of lines one trending repository renders to: the
repository line, plus a topics line when the repository carries topics
(lines 88-90). -/
def repoEntry (r : Repo) : List String :=
  ("  " ++ r.name ++ ": ★" ++ toString r.stars ++ " | "
      ++ (match r.language with
          | some lg => if lg.isEmpty then "N/A" else lg
          | none => "N/A")
      ++ " | " ++ r.description.take 100)
  :: (if r.topics.isEmpty then []
      else ["    topics: " ++ String.intercalate ", " (r.topics.take 5)])

/-- The trending sub-list: at most the top 10 repositories (line 87), each
rendered by `repoEntry`. -/
def trendingRepoEntries (l : List Repo) : List (List String) :=
  (l.take 10).map repoEntry

/-- One most-active repository line (line 94). -/
def mostActiveLine (r : Repo) : String :=
  "  " ++ r.name ++ ": ★" ++ toString r.stars ++ " | pushed: " ++ r.pushed_at.take 10

/-- One ecosystem-topic line (line 98); the topic loop applies no
truncation cap. -/
def topicLine (t : TopicSummary) : String :=
  "  " ++ t.topic ++ ": " ++ toString t.repo_count ++ " repos, "
    ++ toString t.total_stars ++ " total stars"

def topicLines (l : List TopicSummary) : List String :=
  l.map topicLine

/-- The developer section of the digest (lines 83-98). -/
def githubParts (g : GithubRecord) : List String :=
  ["\n## DEVELOPER SIGNALS", "Trending new Solana repos (last 30 days):"]
  ++ (trendingRepoEntries g.trending_new).flatten
  ++ ["\nMost active repos (last 14 days):"]
  ++ (g.most_active.take 10).map mostActiveLine
  ++ ["\nEcosystem topic breakdown:"]
  ++ topicLines g.ecosystem_topics

/-- Python number formatting applied to a possibly-`None` value:
`f"{x:.4f}"` raises `TypeError` when `x` is `None`, as at analyzer.py
line 109 for a token whose stored price is `None`. -/
def fmt4Opt : Option Q → Except String String
  | some q => .ok (fmt4 q)
  | none => .error "TypeError: unsupported format string passed to NoneType.__format__"

/-- Python `f"{x:,.2f}"` on a possibly-`None` value: analyzer.py line 104
formats `sol.get("price_usd", 0)`, which is `None` — and raises — when
the key is present but null. -/
def fmtMoney2Opt : Option Q → Except String String
  | some q => .ok (fmtMoney2 q)
  | none => .error "TypeError: unsupported format string passed to NoneType.__format__"

/-- One ecosystem-token line (line 109): the rendered line, or the
`TypeError` Python raises when the stored price is `None`. -/
def tokenLine (t : Token) : Except String String :=
  (fmt4Opt t.price).map (fun ps =>
    "  " ++ t.symbol ++ ": $" ++ ps ++ ", 7d: " ++ fmtSigned1 t.change_7d
      ++ "%, 14d: " ++ fmtSigned1 t.change_14d ++ "%")

/-- The token sub-list: at most the top 15 tokens (line 108), each a line
computation that renders or raises. -/
def tokenLines (l : List Token) : List (Except String String) :=
  (l.take 15).map tokenLine

/-- The SOL line (line 104): `sol.get("price_usd", 0)` is 0 when the sol
record is the error dict, otherwise the stored price — possibly `None`,
which raises at the format. -/
def solPriceLine (sol : Option SolData) : Except String String :=
  (fmtMoney2Opt (match sol with
    | none => some 0
    | some sd => sd.price_usd)).map (fun ps => "SOL: $" ++ ps)

/-- The trending-token block (lines 111-114): rendered only when the list
is truthy, with one line per element and no truncation cap. -/
def trendingTokenSection (l : List TrendingToken) : List String :=
  if l.isEmpty then []
  else "\nTrending Solana tokens on CoinGecko:"
    :: l.map (fun t => "  " ++ t.name ++ " (" ++ t.symbol ++ ")")

/-- One category-performance line (line 118). -/
def categoryLine (c : CategoryPerf) : String :=
  "  " ++ c.name ++ ": mcap change 24h: " ++ fmtSigned1 c.market_cap_change_24h ++ "%"

/-- The market section of the digest (lines 100-118). -/
def marketParts (m : MarketRecord) : List (Except String String) :=
  [.ok "\n## MARKET SIGNALS",
   solPriceLine m.sol,
   .ok ("  24h: " ++ fmtSigned1 ((m.sol.map SolData.change_24h).getD 0)
     ++ "%, 7d: " ++ fmtSigned1 ((m.sol.map SolData.change_7d).getD 0)
     ++ "%, 14d: " ++ fmtSigned1 ((m.sol.map SolData.change_14d).getD 0)
     ++ "%, 30d: " ++ fmtSigned1 ((m.sol.map SolData.change_30d).getD 0) ++ "%"),
   .ok "\nTop Solana ecosystem tokens (by market cap):"]
  ++ tokenLines m.ecosystem_tokens
  ++ (trendingTokenSection m.trending).map Except.ok
  ++ [.ok "\nRelevant categories:"]
  ++ ((m.categories.take 10).map categoryLine).map Except.ok

/-- The line or pair of lines one ecosystem article renders to: the
article line, plus a summary line when the summary is truthy
(lines 124-127). -/
def articleEntry (a : Article) : List String :=
  ("  [" ++ a.source ++ "] " ++ a.title)
  :: (if a.summary.isEmpty then [] else ["    " ++ a.summary.take 150])

/-- The ecosystem-article sub-list: at most the top 15 articles (line 124),
each rendered by `articleEntry`. -/
def ecoArticleEntries (l : List Article) : List (List String) :=
  (l.take 15).map articleEntry

/-- One news line (line 131). -/
def newsLine (a : Article) : String :=
  "  [" ++ a.source ++ "] " ++ a.title

/-- One governance line (line 135). -/
def govLine (g : Gov) : String :=
  "  " ++ g.title ++ " (by " ++ g.user ++ ")"

/-- The governance sub-list: at most the top 5 items (line 134). -/
def govLines (l : List Gov) : List String :=
  (l.take 5).map govLine

/-- The social section of the digest (lines 120-135). -/
def socialParts (s : SocialRecord) : List String :=
  ["\n## SOCIAL & NEWS SIGNALS", "Recent ecosystem articles:"]
  ++ (ecoArticleEntries s.ecosystem_articles).flatten
  ++ ["\nCrypto news mentioning Solana:"]
  ++ (s.news_articles.take 10).map newsLine
  ++ ["\nGovernance (open SIMDs):"]
  ++ govLines s.governance

/-- The `parts` list accumulated by `build_signal_digest`
(analyzer.py lines 61-135), in source order; each part is the line it
renders to, or the exception Python raises while building it. -/
def digestParts (b : SignalBundle) : List (Except String String) :=
  (onchainParts b.onchain).map Except.ok ++ (githubParts b.github).map Except.ok
    ++ marketParts b.market ++ (socialParts b.social).map Except.ok

/-- Sequential accumulation of the parts: the first exception wins, as in
the Python loop that builds `parts`. -/
def seqParts : List (Except String String) → Except String (List String)
  | [] => .ok []
  | p :: rest => do
    let s ← p
    let t ← seqParts rest
    pure (s :: t)

/-- `build_signal_digest` (analyzer.py lines 59-137): `"\n".join(parts)`
when every part renders, and the propagated exception otherwise (a
`None` stored in a rendered market price raises `TypeError`). -/
def build_signal_digest (b : SignalBundle) : Except String String :=
  (seqParts (digestParts b)).map (String.intercalate "\n")

end analyzer

/-- Encode a possibly-`None` stored number (Python `None` becomes JSON
null). -/
def optNum : Option Q → Val
  | some q => .num q
  | none => .null

/-- The dict `onchain.get_solana_tvl_history` returns (success shape,
onchain.py lines 31-38; error shape, line 26). -/
def TvlRecord.toVal : Option TvlRecord → Val
  | some t =>
    .dict [("current_tvl", .num t.current_tvl),
           ("tvl_14d_ago", .num t.tvl_14d_ago),
           ("tvl_30d_ago", .num t.tvl_30d_ago),
           ("change_14d_pct", .num t.change_14d_pct),
           ("change_30d_pct", .num t.change_30d_pct),
           ("data_points", .list (t.data_points.map (fun dp =>
             .dict [("date", .num dp.1), ("tvl", .num dp.2)])))]
  | none => .dict [("error", .str "Failed to fetch TVL")]

def Protocol.toVal (p : Protocol) : Val :=
  .dict [("name", .str p.name), ("category", .str p.category),
         ("tvl", .num p.tvl), ("change_1d", .num p.change_1d),
         ("change_7d", .num p.change_7d),
         ("chains", .list (p.chains.map Val.str)), ("url", .str p.url)]

def YieldPool.toVal (y : YieldPool) : Val :=
  .dict [("pool", .str y.pool), ("project", .str y.project),
         ("symbol", .str y.symbol), ("tvl_usd", .num y.tvl_usd),
         ("apy", .num y.apy), ("apy_mean_30d", .num y.apy_mean_30d),
         ("apy_change_7d", .num y.apy_change_7d)]

/-- The dict `onchain.get_stablecoin_flows` returns (success shape, line
110; error shape, line 96). -/
def stablecoinsToVal : Option (List Stablecoin) → Val
  | some l =>
    .dict [("stablecoins", .list (l.map (fun s =>
      .dict [("name", .str s.name), ("symbol", .str s.symbol),
             ("circulating_on_solana", .num s.circulating_on_solana)])))]
  | none => .dict [("error", .str "Failed to fetch stablecoin data")]

/-- The dict `onchain.get_network_performance` returns (success shape,
lines 125-128; error shape, lines 123 and 130). -/
def networkToVal : Option NetworkPerf → Val
  | some np => .dict [("avg_tps", .num (Q.ofInt np.avg_tps)),
                      ("samples", .num (Q.ofInt np.samples))]
  | none => .dict [("error", .str "No performance data")]

/-- The onchain CategoryRecord dict (onchain.py lines 136-143). -/
def OnchainRecord.toVal (o : OnchainRecord) : Val :=
  .dict [("tvl", TvlRecord.toVal o.tvl),
         ("top_protocols", .list (o.top_protocols.map Protocol.toVal)),
         ("yields", .list (o.yields.map YieldPool.toVal)),
         ("stablecoins", stablecoinsToVal o.stablecoins),
         ("network", networkToVal o.network),
         ("collected_at", .str o.collected_at)]

def Repo.toVal (r : Repo) : Val :=
  .dict [("name", .str r.name), ("description", .str r.description),
         ("stars", .num (Q.ofInt r.stars)), ("forks", .num (Q.ofInt r.forks)),
         ("language", match r.language with | some lg => .str lg | none => .null),
         ("created_at", .str r.created_at), ("updated_at", .str r.updated_at),
         ("pushed_at", .str r.pushed_at), ("url", .str r.url),
         ("topics", .list (r.topics.map Val.str)),
         ("open_issues", .num (Q.ofInt r.open_issues))]

def TopicSummary.toVal (t : TopicSummary) : Val :=
  .dict [("topic", .str t.topic), ("repo_count", .num (Q.ofInt t.repo_count)),
         ("top_repos", .list (t.top_repos.map Repo.toVal)),
         ("total_stars", .num (Q.ofInt t.total_stars))]

/-- The developer CategoryRecord dict (github_signals.py lines 103-109). -/
def GithubRecord.toVal (g : GithubRecord) : Val :=
  .dict [("trending_new", .list (g.trending_new.map Repo.toVal)),
         ("most_active", .list (g.most_active.map Repo.toVal)),
         ("high_star", .list (g.high_star.map Repo.toVal)),
         ("ecosystem_topics", .list (g.ecosystem_topics.map TopicSummary.toVal)),
         ("collected_at", .str g.collected_at)]

/-- The dict `market.get_sol_price_data` returns (success shape, market.py
lines 64-74; error shape, line 62). -/
def solToVal : Option SolData → Val
  | some s =>
    .dict [("price_usd", optNum s.price_usd), ("market_cap", optNum s.market_cap),
           ("volume_24h", optNum s.volume_24h), ("change_24h", .num s.change_24h),
           ("change_7d", .num s.change_7d), ("change_14d", .num s.change_14d),
           ("change_30d", .num s.change_30d), ("ath", optNum s.ath),
           ("ath_change_pct", .num s.ath_change_pct)]
  | none => .dict [("error", .str "Failed to fetch SOL data")]

def Token.toVal (t : Token) : Val :=
  .dict [("id", .str t.id), ("symbol", .str t.symbol), ("name", .str t.name),
         ("price", optNum t.price), ("market_cap", optNum t.market_cap),
         ("market_cap_rank", optNum t.market_cap_rank),
         ("volume_24h", optNum t.volume_24h), ("change_24h", .num t.change_24h),
         ("change_7d", .num t.change_7d), ("change_14d", .num t.change_14d),
         ("change_30d", .num t.change_30d)]

def TrendingToken.toVal (t : TrendingToken) : Val :=
  .dict [("name", .str t.name), ("symbol", .str t.symbol),
         ("market_cap_rank", optNum t.market_cap_rank), ("score", optNum t.score)]

def CategoryPerf.toVal (c : CategoryPerf) : Val :=
  .dict [("name", .str c.name), ("market_cap", optNum c.market_cap),
         ("market_cap_change_24h", .num c.market_cap_change_24h),
         ("volume_24h", optNum c.volume_24h),
         ("top_3_coins", .list (c.top_3_coins.map Val.str))]

/-- The market CategoryRecord dict (market.py lines 124-129). -/
def MarketRecord.toVal (m : MarketRecord) : Val :=
  .dict [("sol", solToVal m.sol),
         ("ecosystem_tokens", .list (m.ecosystem_tokens.map Token.toVal)),
         ("trending", .list (m.trending.map TrendingToken.toVal)),
         ("categories", .list (m.categories.map CategoryPerf.toVal)),
         ("collected_at", .str m.collected_at)]

def Article.toVal (a : Article) : Val :=
  .dict [("source", .str a.source), ("title", .str a.title),
         ("url", .str a.url), ("published", .str a.published),
         ("summary", .str a.summary)]

def Gov.toVal (g : Gov) : Val :=
  .dict [("title", .str g.title), ("url", .str g.url),
         ("created_at", .str g.created_at), ("user", .str g.user),
         ("labels", .list (g.labels.map Val.str))]

/-- The social CategoryRecord dict (social.py lines 140-144). -/
def SocialRecord.toVal (s : SocialRecord) : Val :=
  .dict [("ecosystem_articles", .list (s.ecosystem_articles.map Article.toVal)),
         ("news_articles", .list (s.news_articles.map Article.toVal)),
         ("governance", .list (s.governance.map Gov.toVal)),
         ("collected_at", .str s.collected_at)]

namespace main

/-- `collect_all` (main.py lines 29-47): builds the signals dict in source
insertion order, with the developer record under the key "github" and the
run timestamp appended under "collected_at". -/
def collect_all (o : OnchainRecord) (g : GithubRecord) (m : MarketRecord)
    (s : SocialRecord) (ts : String) : List (String × Val) :=
  [("onchain", o.toVal), ("github", g.toVal), ("market", m.toVal),
   ("social", s.toVal), ("collected_at", .str ts)]

end main

namespace analyzer

/-- The signal-counting loop inside `analyze` (analyzer.py lines 188-193):
for every dict-valued top-level entry, add the length of every list-valued
field. -/
def count_signals (signals : List (String × Val)) : Nat :=
  signals.foldl
    (fun total kv =>
      match kv.2 with
      | Val.dict fields =>
        fields.foldl
          (fun t kv2 =>
            match kv2.2 with
            | Val.list l => t + l.length
            | _ => t)
          total
      | _ => total)
    0

/-- The environment `analyze_with_claude` probes: whether the `anthropic`
package imports, and the `ANTHROPIC_API_KEY` variable (analyzer.py lines
142-151). -/
structure Env where
  anthropic_installed : Bool
  api_key : Option String

/-- Whether the reasoning service is reachable: the package imports and
the key is set and nonempty (`if not api_key` also rejects `""`). -/
def Env.available (e : Env) : Bool :=
  e.anthropic_installed && !(e.api_key.getD "").isEmpty

/-- The fenced-block extraction in `analyze_with_claude` (analyzer.py
lines 170-175): prefer the first block fenced with a json marker, then the
first generic fenced block, else the raw text. -/
def extract_block (text : String) : String :=
  if containsSub text "```json" then
    ((pySplit text "```json").getD 1 "" |> fun t => (pySplit t "```").headD "")
  else if containsSub text "```" then
    ((pySplit text "```").getD 1 "" |> fun t => (pySplit t "```").headD "")
  else text

/-- `analyze_with_claude` (analyzer.py lines 140-179), holding the service
interaction abstract: `responseText` is the text of the one response and
`loads` is `json.loads` restricted to JSON objects (`none` models
`JSONDecodeError`).  Returns `{}` when unavailable, the parsed object on
success, and `{"raw_response": <extracted text>}` on parse failure — note
the Python rebinds `text` before parsing, so the retained text is the
extracted block, not necessarily the original response. -/
def analyze_with_claude (env : Env) (responseText : String)
    (loads : String → Option (List (String × Val))) : List (String × Val) :=
  if !env.anthropic_installed then []
  else if (env.api_key.getD "").isEmpty then []
  else
    let text := extract_block responseText
    match loads text with
    | some obj => obj
    | none => [("raw_response", Val.str text)]

/-- The fallback report `analyze` returns when the service is unavailable
or its output unusable (analyzer.py lines 204-215). -/
def fallbackReport (nowIso digest : String) (total : Nat) : List (String × Val) :=
  [("analysis_date", .str nowIso),
   ("period", .str "Current fortnight"),
   ("executive_summary", .str "Analysis pending — raw signals collected successfully."),
   ("narratives", .list []),
   ("raw_digest", .str digest),
   ("meta", .dict [("signals_analyzed", .num (Q.ofInt total)),
                   ("data_sources", .list [.str "DeFiLlama", .str "GitHub",
                     .str "CoinGecko", .str "RSS Feeds", .str "Solana RPC"]),
                   ("status", .str "raw_signals_only")])]

/-- `analyze` (analyzer.py lines 182-215) applied to the signals dict a
run assembles for the bundle `b`.  `nowIso` stands for
`datetime.now(timezone.utc).isoformat()`.  The accepted branch performs
`result["meta"] = result.get("meta", {})` followed by the item assignment
`result["meta"]["signals_analyzed"] = total`, which raises `TypeError`
when a parsed `meta` field is not a dict.  The digest is synthesized
first (line 185), so a digest exception propagates out of `analyze`
before any branch is taken. -/
def analyze (b : SignalBundle) (nowIso : String) (env : Env)
    (responseText : String) (loads : String → Option (List (String × Val))) :
    Except String (List (String × Val)) :=
  match build_signal_digest b with
  | .error e => .error e
  | .ok digest =>
    let signals := main.collect_all b.onchain b.github b.market b.social b.collected_at
    let total := count_signals signals
    let result := analyze_with_claude env responseText loads
    if !result.isEmpty && (result.lookup "narratives").isSome then
      match (result.lookup "meta").getD (Val.dict []) with
      | Val.dict mf =>
        .ok (setKey result "meta"
          (Val.dict (setKey mf "signals_analyzed" (.num (Q.ofInt total)))))
      | _ => .error "TypeError: item assignment on non-dict meta"
    else
      .ok (fallbackReport nowIso digest total)

/-- Field access on an `analyze` result that returned a report. -/
def okFields (r : Except String (List (String × Val))) : List (String × Val) :=
  match r with
  | .ok d => d
  | .error _ => []

/-- Lookup inside the `meta` sub-dict of a report. -/
def metaLookup (d : List (String × Val)) (k : String) : Option Val :=
  match d.lookup "meta" with
  | some (Val.dict m) => m.lookup k
  | _ => none

end analyzer

namespace main

/-- The `highlights` projection `generate_site` derives
(main.py lines 72-84). -/
structure Highlights where
  sol_price : Option SolData
  tvl : Option TvlRecord
  top_movers : List Protocol
  trending_repos : List Repo
  recent_news : List Article

/-- The highlights block of `generate_site` (main.py lines 75-84):
`recent_news` is the first 5 ecosystem articles followed by the first 5
news articles. -/
def generate_site_highlights (b : SignalBundle) : Highlights :=
  { sol_price := b.market.sol
    tvl := b.onchain.tvl
    top_movers := b.onchain.top_protocols.take 5
    trending_repos := b.github.trending_new.take 5
    recent_news := b.social.ecosystem_articles.take 5 ++ b.social.news_articles.take 5 }

end main

/-- Python iteration `for x in v`: lists yield elements, dicts their keys,
strings their characters; anything else raises `TypeError`. -/
def Val.iterate : Val → Except String (List Val)
  | .list xs => .ok xs
  | .dict f => .ok (f.map (fun kv => Val.str kv.1))
  | .str s => .ok (s.data.map (fun c => Val.str (String.mk [c])))
  | _ => .error "TypeError: object is not iterable"

/-- Python `s.upper()`. -/
def pyUpper (s : String) : String :=
  String.mk (s.data.map Char.toUpper)

namespace onchain

/-- The error dict of `get_solana_tvl_history` (onchain.py line 26). -/
def tvlErr : Val := .dict [("error", .str "Failed to fetch TVL")]

/-- `get_solana_tvl_history` (onchain.py lines 22-38) as a function of the
decoded response (`none` models the caught transport/HTTP/JSON failure in
`_get`).  Shape errors after a successful fetch are uncaught in the
source: `recent[-1]["tvl"]` raises on entries without a `tvl` field, and
a zero 14- or 30-day value raises `ZeroDivisionError`. -/
def get_solana_tvl_history (fetched : Option Val) : Except String Val := do
  match fetched with
  | none => return tvlErr
  | some data =>
    if !data.truthy then return tvlErr
    let xs ← data.asList
    let recent := xs.drop (xs.length - 30)
    let current ← (recent.getLastD Val.null).getItem "tvl"
    let tvl14 ←
      (if recent.length ≥ 14 then recent.getD (recent.length - 14) Val.null
       else recent.headD Val.null).getItem "tvl"
    let tvl30 ← (recent.headD Val.null).getItem "tvl"
    let cq ← current.asNum
    let q14 ← tvl14.asNum
    let q30 ← tvl30.asNum
    if q14.isZero then Except.error "ZeroDivisionError" else do
    let chg14 := round2 ((cq.sub q14).div q14 |>.mul (Q.ofInt 100))
    if q30.isZero then Except.error "ZeroDivisionError" else do
    let chg30 := round2 ((cq.sub q30).div q30 |>.mul (Q.ofInt 100))
    let pts ← recent.mapM (fun d => do
      let dt ← d.getItem "date"
      let tv ← d.getItem "tvl"
      pure (Val.dict [("date", dt), ("tvl", tv)]))
    return Val.dict
      [("current_tvl", current), ("tvl_14d_ago", tvl14), ("tvl_30d_ago", tvl30),
       ("change_14d_pct", .num chg14), ("change_30d_pct", .num chg30),
       ("data_points", .list pts)]

/-- `get_top_protocols` (onchain.py lines 41-64). -/
def get_top_protocols (fetched : Option Val) (limit : Nat := 30) :
    Except String (List Val) := do
  match fetched with
  | none => return []
  | some data =>
    if !data.truthy then return []
    let xs ← data.iterate
    let solana ← xs.foldlM (fun acc p => do
      let chains := pyOr (← p.getOpt "chains") (.list [])
      let hasSol ← chains.hasMember (.str "Solana")
      if !hasSol then pure acc
      else do
        let tq ← (pyOr (← p.getOpt "tvl") (.num 0)).asNum
        pure (if Q.lt (Q.ofInt 1000000) tq then acc ++ [p] else acc)) []
    let annotated ← solana.mapM (fun p => do
      let c ← (pyOr (← p.getOpt "change_7d") (.num 0)).asNum
      pure (p, c))
    let sorted := sortDescBy (fun pc => pc.2.qabs) annotated
    (sorted.take limit).mapM (fun pc => do
      let p := pc.1
      let name ← p.getItem "name"
      let category ← p.getOr "category" (.str "Unknown")
      let tq ← (← p.getOr "tvl" (.num 0)).asNum
      let c1 ← (pyOr (← p.getOpt "change_1d") (.num 0)).asNum
      let c7 ← (pyOr (← p.getOpt "change_7d") (.num 0)).asNum
      let chains ← p.getOr "chains" (.list [])
      let url ← p.getOr "url" (.str "")
      pure (Val.dict
        [("name", name), ("category", category),
         ("tvl", .num (Q.ofInt (roundHalfEven tq))),
         ("change_1d", .num (round2 c1)), ("change_7d", .num (round2 c7)),
         ("chains", chains), ("url", url)]))

/-- `get_yield_opportunities` (onchain.py lines 67-89). -/
def get_yield_opportunities (fetched : Option Val) (limit : Nat := 20) :
    Except String (List Val) := do
  match fetched with
  | none => return []
  | some data =>
    match data with
    | Val.dict _ =>
      if !data.truthy then return []
      let pools ← data.getOr "data" (.list [])
      let xs ← pools.iterate
      let solana ← xs.foldlM (fun acc p => do
        let chain ← p.getOpt "chain"
        if !(atomEq chain (.str "Solana")) then pure acc
        else do
          let tq ← (pyOr (← p.getOpt "tvlUsd") (.num 0)).asNum
          pure (if Q.lt (Q.ofInt 500000) tq then acc ++ [p] else acc)) []
      let annotated ← solana.mapM (fun p => do
        let c ← (pyOr (← p.getOpt "apyMean30d") (.num 0)).asNum
        pure (p, c))
      let sorted := sortDescBy (fun pc => pc.2.qabs) annotated
      (sorted.take limit).mapM (fun pc => do
        let p := pc.1
        let pool ← p.getOr "pool" (.str "")
        let project ← p.getOr "project" (.str "")
        let symbol ← p.getOr "symbol" (.str "")
        let tq ← (← p.getOr "tvlUsd" (.num 0)).asNum
        let apy ← (pyOr (← p.getOpt "apy") (.num 0)).asNum
        let apyMean ← (pyOr (← p.getOpt "apyMean30d") (.num 0)).asNum
        pure (Val.dict
          [("pool", pool), ("project", project), ("symbol", symbol),
           ("tvl_usd", .num (Q.ofInt (roundHalfEven tq))),
           ("apy", .num (round2 apy)), ("apy_mean_30d", .num (round2 apyMean)),
           ("apy_change_7d", .num (round2 (apy.sub apyMean)))]))
    | _ => return []

/-- `get_stablecoin_flows` (onchain.py lines 92-110). -/
def get_stablecoin_flows (fetched : Option Val) : Except String Val := do
  match fetched with
  | none => return Val.dict [("error", .str "Failed to fetch stablecoin data")]
  | some data =>
    if !data.truthy then
      return Val.dict [("error", .str "Failed to fetch stablecoin data")]
    let stables ← data.getOr "peggedAssets" (.list [])
    let xs ← stables.iterate
    let entries ← xs.foldlM (fun acc s => do
      let chains ← s.getOr "chainCirculating" (.dict [])
      let hasSol ← chains.hasMember (.str "Solana")
      if !hasSol then pure acc
      else do
        let solData ← chains.getItem "Solana"
        let current ←
          match solData with
          | Val.dict _ => do
            let cur ← solData.getOr "current" (.dict [])
            let pegged ← cur.getOr "peggedUSD" (.num 0)
            pegged.asNum
          | _ => pure (Q.ofInt 0)
        let name ← s.getOr "name" (.str "")
        let symbol ← s.getOr "symbol" (.str "")
        pure (acc ++ [((Val.dict
          [("name", name), ("symbol", symbol),
           ("circulating_on_solana", .num current)]), current)])) []
    let sorted := sortDescBy Prod.snd entries
    return Val.dict [("stablecoins", .list ((sorted.take 10).map Prod.fst))]

/-- `get_network_performance` (onchain.py lines 113-130): the whole body
sits in `try`/`except`, so every failure degrades to an error dict. -/
def get_network_performance (fetched : Option Val) : Val :=
  match (do
    let j ← match fetched with
      | some j => pure j
      | none => Except.error "RequestError"
    let samples ← j.getOr "result" (.list [])
    if !samples.truthy then
      return Val.dict [("error", .str "No performance data")]
    let xs ← samples.iterate
    let rates ← xs.mapM (fun s => do
      let n ← (← s.getItem "numTransactions").asNum
      let p ← (← s.getItem "samplePeriodSecs").asNum
      if p.isZero then Except.error "ZeroDivisionError" else pure (n.div p))
    let total := rates.foldl Q.add (Q.ofInt 0)
    let avg := total.div (Q.ofInt xs.length)
    return Val.dict [("avg_tps", .num (Q.ofInt (roundHalfEven avg))),
                     ("samples", .num (Q.ofInt xs.length))]
    : Except String Val) with
  | .ok v => v
  | .error e => Val.dict [("error", .str e)]

/-- `onchain.collect` (onchain.py lines 133-147): no handler of its own,
so a shape error in the first four helpers propagates out. -/
def collect (fTvl fProtocols fYields fStables fNetwork : Option Val)
    (ts : String) : Except String Val := do
  let tvl ← get_solana_tvl_history fTvl
  let protocols ← get_top_protocols fProtocols
  let yields ← get_yield_opportunities fYields
  let stables ← get_stablecoin_flows fStables
  let network := get_network_performance fNetwork
  return Val.dict
    [("tvl", tvl), ("top_protocols", .list protocols), ("yields", .list yields),
     ("stablecoins", stables), ("network", network), ("collected_at", .str ts)]

end onchain

namespace market

/-- `get_solana_ecosystem_tokens` (market.py lines 21-52).  The output
comprehension subscripts `t["id"]` and calls `t["symbol"].upper()`
without any handler, so malformed entries raise. -/
def get_solana_ecosystem_tokens (fetched : Option Val) : Except String (List Val) := do
  match fetched with
  | none => return []
  | some data =>
    if !data.truthy then return []
    let xs ← data.iterate
    xs.mapM (fun t => do
      let id ← t.getItem "id"
      let symbol ← (← t.getItem "symbol").asStr
      let name ← t.getItem "name"
      let price ← t.getOpt "current_price"
      let mcap ← t.getOpt "market_cap"
      let rank ← t.getOpt "market_cap_rank"
      let vol ← t.getOpt "total_volume"
      let c24 ← (pyOr (← t.getOpt "price_change_percentage_24h") (.num 0)).asNum
      let c7 ← (pyOr (← t.getOpt "price_change_percentage_7d_in_currency") (.num 0)).asNum
      let c14 ← (pyOr (← t.getOpt "price_change_percentage_14d_in_currency") (.num 0)).asNum
      let c30 ← (pyOr (← t.getOpt "price_change_percentage_30d_in_currency") (.num 0)).asNum
      pure (Val.dict
        [("id", id), ("symbol", .str (pyUpper symbol)), ("name", name),
         ("price", price), ("market_cap", mcap), ("market_cap_rank", rank),
         ("volume_24h", vol), ("change_24h", .num (round2 c24)),
         ("change_7d", .num (round2 c7)), ("change_14d", .num (round2 c14)),
         ("change_30d", .num (round2 c30))]))

/-- `get_sol_price_data` (market.py lines 55-74). -/
def get_sol_price_data (fetched : Option Val) : Except String Val := do
  match fetched with
  | none => return Val.dict [("error", .str "Failed to fetch SOL data")]
  | some data =>
    if !data.truthy then
      return Val.dict [("error", .str "Failed to fetch SOL data")]
    let mkt ← data.getOr "market_data" (.dict [])
    let price ← (← mkt.getOr "current_price" (.dict [])).getOpt "usd"
    let mcap ← (← mkt.getOr "market_cap" (.dict [])).getOpt "usd"
    let vol ← (← mkt.getOr "total_volume" (.dict [])).getOpt "usd"
    let c24 ← (pyOr (← mkt.getOpt "price_change_percentage_24h") (.num 0)).asNum
    let c7 ← (pyOr (← mkt.getOpt "price_change_percentage_7d") (.num 0)).asNum
    let c14 ← (pyOr (← mkt.getOpt "price_change_percentage_14d") (.num 0)).asNum
    let c30 ← (pyOr (← mkt.getOpt "price_change_percentage_30d") (.num 0)).asNum
    let ath ← (← mkt.getOr "ath" (.dict [])).getOpt "usd"
    let athChg ← (pyOr (← (← mkt.getOr "ath_change_percentage" (.dict [])).getOpt "usd") (.num 0)).asNum
    return Val.dict
      [("price_usd", price), ("market_cap", mcap), ("volume_24h", vol),
       ("change_24h", .num (round2 c24)), ("change_7d", .num (round2 c7)),
       ("change_14d", .num (round2 c14)), ("change_30d", .num (round2 c30)),
       ("ath", ath), ("ath_change_pct", .num (round2 athChg))]

/-- `get_trending_tokens` (market.py lines 77-94). -/
def get_trending_tokens (fetched : Option Val) : Except String (List Val) := do
  match fetched with
  | none => return []
  | some data =>
    if !data.truthy then return []
    let coins ← data.getOr "coins" (.list [])
    let xs ← coins.iterate
    xs.foldlM (fun acc c => do
      let item ← c.getOr "item" (.dict [])
      let platforms ← item.getOr "platforms" (.dict [])
      let direct ← platforms.hasMember (.str "solana")
      let keep ←
        if direct then pure true
        else do
          let vs ← platforms.valuesOf
          pure (vs.any (fun v => containsSub (pyLower (strOfVal v)) "solana"))
      if !keep then pure acc
      else do
        let name ← item.getOpt "name"
        let symbol ← item.getOpt "symbol"
        let rank ← item.getOpt "market_cap_rank"
        let score ← item.getOpt "score"
        pure (acc ++ [Val.dict
          [("name", name), ("symbol", symbol),
           ("market_cap_rank", rank), ("score", score)]])) []

def category_keywords : List String :=
  ["solana", "defi", "liquid staking", "dex", "lending", "yield", "meme",
   "ai", "depin", "rwa"]

/-- `get_defi_categories` (market.py lines 97-118). -/
def get_defi_categories (fetched : Option Val) : Except String (List Val) := do
  match fetched with
  | none => return []
  | some data =>
    if !data.truthy then return []
    let xs ← data.iterate
    let relevant ← xs.foldlM (fun acc c => do
      let nameV := pyOr (← c.getOpt "name") (.str "")
      let name ← nameV.asStr
      let low := pyLower name
      pure (if category_keywords.any (fun kw => containsSub low kw)
            then acc ++ [c] else acc)) []
    (relevant.take 15).mapM (fun c => do
      let name ← c.getItem "name"
      let mcap ← c.getOpt "market_cap"
      let chg ← (pyOr (← c.getOpt "market_cap_change_24h") (.num 0)).asNum
      let vol ← c.getOpt "volume_24h"
      let top3V ← c.getOr "top_3_coins" (.list [])
      let top3 ←
        match top3V with
        | Val.list l => pure (Val.list (l.take 3))
        | Val.str s => pure (Val.str (s.take 3))
        | _ => Except.error "TypeError: value is not subscriptable by slice"
      pure (Val.dict
        [("name", name), ("market_cap", mcap),
         ("market_cap_change_24h", .num (round2 chg)),
         ("volume_24h", vol), ("top_3_coins", top3)]))

/-- `market.collect` (market.py lines 121-134): no handler of its own. -/
def collect (fSol fTokens fTrending fCategories : Option Val)
    (ts : String) : Except String Val := do
  let sol ← get_sol_price_data fSol
  let tokens ← get_solana_ecosystem_tokens fTokens
  let trending ← get_trending_tokens fTrending
  let categories ← get_defi_categories fCategories
  return Val.dict
    [("sol", sol), ("ecosystem_tokens", .list tokens),
     ("trending", .list trending), ("categories", .list categories),
     ("collected_at", .str ts)]

end market

namespace github_signals

/-- The parsing half of `_search_repos` (github_signals.py lines 20-48):
the whole body sits in `try`/`except`, so a transport failure (`none`) or
any shape error yields `[]` instead of raising. -/
def search_repos (fetched : Option Val) : List Val :=
  match (do
    let j ← match fetched with
      | some j => pure j
      | none => Except.error "RequestError"
    let items ← j.getOr "items" (.list [])
    let xs ← items.iterate
    xs.mapM (fun r => do
      let name ← r.getItem "full_name"
      let desc ← (pyOr (← r.getOpt "description") (.str "")).asStr
      let stars ← r.getItem "stargazers_count"
      let forks ← r.getItem "forks_count"
      let lang ← r.getOpt "language"
      let created ← r.getItem "created_at"
      let updated ← r.getItem "updated_at"
      let pushed ← r.getItem "pushed_at"
      let url ← r.getItem "html_url"
      let topics ← r.getOr "topics" (.list [])
      let issues ← r.getItem "open_issues_count"
      pure (Val.dict
        [("name", name), ("description", .str (desc.take 200)),
         ("stars", stars), ("forks", forks), ("language", lang),
         ("created_at", created), ("updated_at", updated),
         ("pushed_at", pushed), ("url", url), ("topics", topics),
         ("open_issues", issues)]))
    : Except String (List Val)) with
  | .ok l => l
  | .error _ => []

def topics_list : List String :=
  ["solana defi", "solana nft", "solana payments", "solana ai agent",
   "solana mobile", "solana depin", "solana gaming", "solana rwa",
   "solana blink", "solana token-extensions"]

/-- `get_ecosystem_topics` (github_signals.py lines 73-97).  The summation
`sum(r["stars"] for r in repos)` runs outside any handler, so a
non-numeric star count raises out of the adapter. -/
def get_ecosystem_topics (fetchTopic : String → Option Val) :
    Except String (List Val) := do
  let entries ← topics_list.mapM (fun topic => do
    let repos := search_repos (fetchTopic topic)
    let stars ← repos.mapM (fun r => do Val.asNum (← r.getItem "stars"))
    let total := stars.foldl Q.add (Q.ofInt 0)
    pure ((Val.dict
      [("topic", .str (pyReplace topic "solana " "")),
       ("repo_count", .num (Q.ofInt repos.length)),
       ("top_repos", .list (repos.take 3)),
       ("total_stars", .num total)]), total))
  return (sortDescBy Prod.snd entries).map Prod.fst

/-- `github_signals.collect` (github_signals.py lines 100-113). -/
def collect (fTrending fActive fHighStar : Option Val)
    (fetchTopic : String → Option Val) (ts : String) : Except String Val := do
  let trending := search_repos fTrending
  let active := search_repos fActive
  let high := search_repos fHighStar
  let topics ← get_ecosystem_topics fetchTopic
  return Val.dict
    [("trending_new", .list trending), ("most_active", .list active),
     ("high_star", .list high), ("ecosystem_topics", .list topics),
     ("collected_at", .str ts)]

end github_signals

namespace social

def RSS_FEEDS : List String :=
  ["Solana Foundation", "Helius Blog", "Jito Blog", "Marinade", "Jupiter"]

def NEWS_FEEDS : List String := ["CoinDesk Solana", "TheBlock"]

/-- The outcome of `_parse_rss` for one feed (social.py lines 29-52): the
XML fetching and parsing sit entirely inside `try`/`except`, so the feed
either yields parsed articles (truncated to 10) or, on any failure, `[]`.
The articles themselves always carry string fields, because
`ElementTree.findtext` returns strings. -/
def parse_rss (fetched : Option (List Article)) : List Article :=
  match fetched with
  | none => []
  | some items => items.take 10

/-- `_parse_atom` (social.py lines 55-79): on any failure it retries the
same URL as RSS. -/
def parse_atom (fetchedAtom : Option (List Article))
    (fetchedRss : Option (List Article)) : List Article :=
  match fetchedAtom with
  | some items => items.take 10
  | none => parse_rss fetchedRss

/-- `get_ecosystem_articles` (social.py lines 82-90). -/
def get_ecosystem_articles (rssF atomF : String → Option (List Article)) :
    List Article :=
  RSS_FEEDS.flatMap (fun src =>
    let articles := parse_rss (rssF src)
    if articles.isEmpty then parse_atom (atomF src) (rssF src) else articles)

def news_keywords : List String :=
  ["solana", "sol", "jupiter", "jito", "raydium", "phantom", "marinade"]

/-- `get_news_articles` (social.py lines 93-108): general feeds are
filtered by keyword over the lowered title and summary. -/
def get_news_articles (rssF : String → Option (List Article)) : List Article :=
  NEWS_FEEDS.flatMap (fun src =>
    let articles := parse_rss (rssF src)
    if src ≠ "CoinDesk Solana" then
      articles.filter (fun a =>
        news_keywords.any (fun kw =>
          containsSub (pyLower (a.title ++ " " ++ a.summary)) kw))
    else articles)

/-- `get_governance_proposals` (social.py lines 111-134): the whole body
sits in `try`/`except`, so any failure yields `[]`.  (String coercion of
the extracted fields approximates entries whose JSON fields are
non-strings; either way nothing raises.) -/
def get_governance_proposals (fetched : Option Val) : List Gov :=
  match (do
    let prs ← match fetched with
      | some j => pure j
      | none => Except.error "RequestError"
    let xs ← prs.iterate
    xs.mapM (fun pr => do
      let title ← (← pr.getItem "title").asStr
      let url ← (← pr.getItem "html_url").asStr
      let created ← (← pr.getItem "created_at").asStr
      let user ← (← (← pr.getItem "user").getItem "login").asStr
      let labelsV ← pr.getOr "labels" (.list [])
      let ls ← labelsV.iterate
      let labels ← ls.mapM (fun lb => do Val.asStr (← lb.getItem "name"))
      pure (Gov.mk title url created user labels))
    : Except String (List Gov)) with
  | .ok l => l
  | .error _ => []

/-- `social.collect` (social.py lines 137-150): total — every helper it
calls catches its own failures. -/
def collect (rssF atomF newsF : String → Option (List Article))
    (govF : Option Val) (ts : String) : SocialRecord :=
  { ecosystem_articles := get_ecosystem_articles rssF atomF
    news_articles := get_news_articles newsF
    governance := get_governance_proposals govF
    collected_at := ts }

end social

/-! Shared lemmas and sample inputs used by the claim theorems. -/

/-- `seqParts` on a successfully rendering head part. -/
theorem seqParts_cons_ok (a : String) (rest : List (Except String String)) :
    analyzer.seqParts (.ok a :: rest)
      = (analyzer.seqParts rest).map (fun t => a :: t) := by
  show Except.bind (analyzer.seqParts rest) (fun t => Except.pure (a :: t))
      = (analyzer.seqParts rest).map (fun t => a :: t)
  cases analyzer.seqParts rest <;> rfl

/-- A part list in which every part renders sequences to a rendered
list. -/
theorem seqParts_all_ok :
    ∀ ps : List (Except String String), (∀ p ∈ ps, ∃ a, p = .ok a) →
      ∃ l, analyzer.seqParts ps = .ok l := by
  intro ps
  induction ps with
  | nil => exact fun _ => ⟨[], rfl⟩
  | cons p rest ih =>
    intro h
    obtain ⟨a, ha⟩ := h p (List.mem_cons_self p rest)
    obtain ⟨l, hl⟩ := ih (fun q hq => h q (List.mem_cons_of_mem p hq))
    subst ha
    exact ⟨a :: l, by rw [seqParts_cons_ok, hl]; rfl⟩

theorem lookup_setKey_self (d : List (String × Val)) (k : String) (v : Val) :
    (setKey d k v).lookup k = some v := by
  induction d with
  | nil => simp [setKey, List.lookup]
  | cons kv rest ih =>
    obtain ⟨k1, v1⟩ := kv
    by_cases h : k1 = k
    · subst h
      simp [setKey, List.lookup]
    · simp only [setKey, if_neg h, List.lookup]
      have hbeq : (k == k1) = false := by
        simp [beq_iff_eq]
        exact fun he => h he.symm
      rw [hbeq]
      exact ih

/-- The aggregator count over the assembled signals dict equals the sum of
the lengths of the twelve sequence-valued category fields. -/
theorem count_signals_collect_all (o : OnchainRecord) (g : GithubRecord)
    (m : MarketRecord) (s : SocialRecord) (ts : String) :
    analyzer.count_signals (main.collect_all o g m s ts) =
      o.top_protocols.length + o.yields.length
      + g.trending_new.length + g.most_active.length + g.high_star.length
      + g.ecosystem_topics.length
      + m.ecosystem_tokens.length + m.trending.length + m.categories.length
      + s.ecosystem_articles.length + s.news_articles.length + s.governance.length := by
  rcases o with ⟨tvl, protos, ys, stables, network, oca⟩
  rcases tvl with _ | t <;> rcases stables with _ | st <;> rcases network with _ | np <;>
    rcases m with ⟨sol, toks, tr, cats, mca⟩ <;> rcases sol with _ | sd <;>
    simp [analyzer.count_signals, main.collect_all, OnchainRecord.toVal,
      GithubRecord.toVal, MarketRecord.toVal, SocialRecord.toVal,
      TvlRecord.toVal, stablecoinsToVal, networkToVal, solToVal]

def oEmpty : OnchainRecord := ⟨none, [], [], none, none, "T"⟩

def gEmpty : GithubRecord := ⟨[], [], [], [], "T"⟩

def mEmpty : MarketRecord := ⟨none, [], [], [], "T"⟩

def sEmpty : SocialRecord := ⟨[], [], [], "T"⟩

/-- A bundle whose categories are all empty. -/
def bundleEmpty : SignalBundle := ⟨oEmpty, gEmpty, mEmpty, sEmpty, "T"⟩

/-- An environment with the client installed and a key set. -/
def envOk : analyzer.Env := ⟨true, some "k"⟩

/-- Whether the SOL record, if present, stores an actual price: the
rendering-totality domain of the digest on the SOL line. -/
def analyzer.solPricePresent : Option SolData → Bool
  | none => true
  | some sd => sd.price_usd.isSome

/-- A market token as the collector stores it when the provider returned
`current_price: null` (market.py line 42 keeps the `None`). -/
def tokenNonePrice : Token :=
  ⟨"tid", "TKN", "TokenName", none, none, none, none, 0, 0, 0, 0⟩

/-- A SOL record as the collector stores it when the provider omitted the
usd price (market.py line 65 yields `None`). -/
def solNonePrice : SolData :=
  ⟨none, none, none, 0, 0, 0, 0, none, 0⟩

def bundleNoneTokenPrice : SignalBundle :=
  ⟨oEmpty, gEmpty, ⟨none, [tokenNonePrice], [], [], "T"⟩, sEmpty, "T"⟩

def bundleNoneSolPrice : SignalBundle :=
  ⟨oEmpty, gEmpty, ⟨some solNonePrice, [], [], [], "T"⟩, sEmpty, "T"⟩

/-- C3 counterexample: `build_signal_digest` is not total on the bundles
the collectors admit.  A stored `None` token price (market.py line 42)
raises `TypeError` at the token format (analyzer.py line 109), and a
stored `None` SOL price (market.py line 65) raises at the SOL format
(analyzer.py line 104); the exception propagates. -/
theorem c3_counterexample :
    analyzer.build_signal_digest bundleNoneTokenPrice
        = .error "TypeError: unsupported format string passed to NoneType.__format__"
    ∧ analyzer.build_signal_digest bundleNoneSolPrice
        = .error "TypeError: unsupported format string passed to NoneType.__format__" :=
  ⟨rfl, rfl⟩

/-- C3 (amended): `build_signal_digest` is deterministic — identical
bundles yield identical outcomes, digest or exception, with no I/O,
randomness or network in its definition — and it is total (returns a
digest rather than raising) on every bundle whose rendered market prices
are present: when every ecosystem-token price is stored and the SOL
record, if any, stores a price, the digest is produced.  (Totality fails
on collector-producible bundles with a `None` rendered price, by
`c3_counterexample`.) -/
theorem c3_digest_deterministic :
    (∀ b1 b2 : SignalBundle, b1 = b2 →
      analyzer.build_signal_digest b1 = analyzer.build_signal_digest b2)
    ∧ (∀ b : SignalBundle,
        b.market.ecosystem_tokens.all (fun t => t.price.isSome) = true →
        analyzer.solPricePresent b.market.sol = true →
        ∃ s, analyzer.build_signal_digest b = .ok s) := by
  constructor
  · intro b1 b2 h
    rw [h]
  · intro b h1 h2
    have hmap : ∀ (A : List String) (p : Except String String),
        p ∈ A.map Except.ok → ∃ a, p = .ok a := by
      intro A p hp
      obtain ⟨a, -, rfl⟩ := List.mem_map.1 hp
      exact ⟨a, rfl⟩
    have hTok : ∀ p ∈ analyzer.tokenLines b.market.ecosystem_tokens,
        ∃ a, p = .ok a := by
      intro p hp
      obtain ⟨t, ht, rfl⟩ := List.mem_map.1 hp
      have hmem : t ∈ b.market.ecosystem_tokens := List.take_subset _ _ ht
      have hpres := List.all_eq_true.1 h1 t hmem
      cases hq : t.price with
      | none => rw [hq] at hpres; exact absurd hpres (by simp)
      | some q =>
        exact ⟨"  " ++ t.symbol ++ ": $" ++ fmt4 q ++ ", 7d: "
            ++ fmtSigned1 t.change_7d ++ "%, 14d: " ++ fmtSigned1 t.change_14d ++ "%",
          by simp [analyzer.tokenLine, analyzer.fmt4Opt, hq, Except.map]⟩
    have hSol : ∃ a, analyzer.solPriceLine b.market.sol = .ok a := by
      cases hsol : b.market.sol with
      | none => exact ⟨_, rfl⟩
      | some sd =>
        have hps : sd.price_usd.isSome = true := by
          rw [hsol] at h2
          simpa [analyzer.solPricePresent] using h2
        obtain ⟨q, hq⟩ := Option.isSome_iff_exists.1 hps
        exact ⟨"SOL: $" ++ fmtMoney2 q,
          by simp [analyzer.solPriceLine, analyzer.fmtMoney2Opt, hq, Except.map]⟩
    have hparts : ∀ p ∈ analyzer.digestParts b, ∃ a, p = .ok a := by
      intro p hp
      simp only [analyzer.digestParts] at hp
      rcases List.mem_append.1 hp with hp1 | hpC
      · rcases List.mem_append.1 hp1 with hp2 | hpM
        · rcases List.mem_append.1 hp2 with hpA | hpB
          · exact hmap _ p hpA
          · exact hmap _ p hpB
        · simp only [analyzer.marketParts] at hpM
          rcases List.mem_append.1 hpM with hp3 | hpE
          · rcases List.mem_append.1 hp3 with hp4 | hpH4
            · rcases List.mem_append.1 hp4 with hp5 | hpD
              · rcases List.mem_append.1 hp5 with hpHead | hpTok
                · simp only [List.mem_cons, List.not_mem_nil, or_false] at hpHead
                  rcases hpHead with rfl | rfl | rfl | rfl
                  · exact ⟨_, rfl⟩
                  · exact hSol
                  · exact ⟨_, rfl⟩
                  · exact ⟨_, rfl⟩
                · exact hTok p hpTok
              · exact hmap _ p hpD
            · simp only [List.mem_cons, List.not_mem_nil, or_false] at hpH4
              rw [hpH4]
              exact ⟨_, rfl⟩
          · exact hmap _ p hpE
      · exact hmap _ p hpC
    obtain ⟨l, hl⟩ := seqParts_all_ok _ hparts
    refine ⟨String.intercalate "\n" l, ?_⟩
    unfold analyzer.build_signal_digest
    rw [hl]
    rfl

/-- C3 witness: the all-empty bundle satisfies the price-presence
hypotheses, and the theorem produces its digest and its determinism. -/
theorem c3_digest_deterministic_witness :
    (bundleEmpty = bundleEmpty
      ∧ bundleEmpty.market.ecosystem_tokens.all (fun t => t.price.isSome) = true
      ∧ analyzer.solPricePresent bundleEmpty.market.sol = true)
    ∧ (analyzer.build_signal_digest bundleEmpty
        = analyzer.build_signal_digest bundleEmpty)
    ∧ ∃ s, analyzer.build_signal_digest bundleEmpty = .ok s :=
  ⟨⟨rfl, rfl, rfl⟩,
   c3_digest_deterministic.1 bundleEmpty bundleEmpty rfl,
   c3_digest_deterministic.2 bundleEmpty rfl rfl⟩

/-- C5: the digest renders at most 15 protocol lines, 10 yield-pool lines,
10 trending-repository entries (each contributing its one repository
line), 15 market-token lines (token-line computations, each rendering one
line when the stored price is present), 15 ecosystem-article entries
(each contributing its one article line) and 5 governance lines, whatever
the input sequence lengths; these six functions are exactly the sub-list
renderers `build_signal_digest` is built from. -/
theorem c5_truncation_caps (b : SignalBundle) :
    analyzer.build_signal_digest b
        = (analyzer.seqParts (analyzer.digestParts b)).map (String.intercalate "\n")
    ∧ (analyzer.protocolLines b.onchain.top_protocols).length ≤ 15
    ∧ (analyzer.yieldLines b.onchain.yields).length ≤ 10
    ∧ (analyzer.trendingRepoEntries b.github.trending_new).length ≤ 10
    ∧ (analyzer.tokenLines b.market.ecosystem_tokens).length ≤ 15
    ∧ (analyzer.ecoArticleEntries b.social.ecosystem_articles).length ≤ 15
    ∧ (analyzer.govLines b.social.governance).length ≤ 5 := by
  refine ⟨rfl, ?_, ?_, ?_, ?_, ?_, ?_⟩ <;>
    simp [analyzer.protocolLines, analyzer.yieldLines, analyzer.trendingRepoEntries,
      analyzer.tokenLines, analyzer.ecoArticleEntries, analyzer.govLines,
      List.length_take]

/-- C10: the digest renders one line per trending-token entry whenever the
trending list is nonempty (plus the block header), and one line per
ecosystem-topic entry, with no truncation cap on either, so the digest
grows linearly with those two sequences. -/
theorem c10_uncapped_sections (b : SignalBundle) :
    (analyzer.topicLines b.github.ecosystem_topics).length
        = b.github.ecosystem_topics.length
    ∧ (analyzer.trendingTokenSection b.market.trending).length
        = (if b.market.trending.isEmpty then 0 else b.market.trending.length + 1) := by
  constructor
  · simp [analyzer.topicLines]
  · by_cases h : b.market.trending.isEmpty <;>
      simp [analyzer.trendingTokenSection, h]

def artA : Article := ⟨"Eco", "A", "", "", ""⟩

def artB : Article := ⟨"Eco", "B", "", "", ""⟩

def artC : Article := ⟨"Eco", "C", "", "", ""⟩

def artD : Article := ⟨"Eco", "D", "", "", ""⟩

def artE : Article := ⟨"Eco", "E", "", "", ""⟩

def artF : Article := ⟨"Eco", "F", "", "", ""⟩

def artX : Article := ⟨"News", "X", "", "", ""⟩

def artY : Article := ⟨"News", "Y", "", "", ""⟩

/-- A bundle with six ecosystem articles and two news articles. -/
def bundleC8 : SignalBundle :=
  ⟨oEmpty, gEmpty, mEmpty,
   ⟨[artA, artB, artC, artD, artE, artF], [artX, artY], [], "T"⟩, "T"⟩

/-- C8: the `recent_news` highlight is the first 5 ecosystem articles
followed by the first 5 news articles — hence at most 10 articles, each
source internally in order (a sublist of its source), ecosystem before
news; on ecosystem articles [A..F] and news [X, Y] it equals
[A, B, C, D, E, X, Y]. -/
theorem c8_recent_news :
    (∀ b : SignalBundle,
      (main.generate_site_highlights b).recent_news
          = b.social.ecosystem_articles.take 5 ++ b.social.news_articles.take 5
      ∧ (main.generate_site_highlights b).recent_news.length ≤ 10
      ∧ (b.social.ecosystem_articles.take 5).Sublist b.social.ecosystem_articles
      ∧ (b.social.news_articles.take 5).Sublist b.social.news_articles)
    ∧ (main.generate_site_highlights bundleC8).recent_news
        = [artA, artB, artC, artD, artE, artX, artY] := by
  constructor
  · intro b
    refine ⟨rfl, ?_, List.take_sublist 5 _, List.take_sublist 5 _⟩
    simp [main.generate_site_highlights, List.length_take]
    omega
  · rfl

/-- C7 counterexample: the assembled signals mapping does not have key
set onchain, developer, market, social — the developer record is stored
under "github" and a fifth entry "collected_at" is appended. -/
theorem c7_counterexample :
    (main.collect_all oEmpty gEmpty mEmpty sEmpty "T").map Prod.fst
      ≠ ["onchain", "developer", "market", "social"] := by
  decide

/-- C7 (amended): for every run the assembled mapping has exactly the keys
onchain, github, market, social, collected_at, in that order; the first
four are bound to the corresponding CategoryRecords and the fifth to the
run timestamp. -/
theorem c7_bundle_keys (o : OnchainRecord) (g : GithubRecord) (m : MarketRecord)
    (s : SocialRecord) (ts : String) :
    (main.collect_all o g m s ts).map Prod.fst
        = ["onchain", "github", "market", "social", "collected_at"]
    ∧ (main.collect_all o g m s ts).lookup "onchain" = some o.toVal
    ∧ (main.collect_all o g m s ts).lookup "github" = some g.toVal
    ∧ (main.collect_all o g m s ts).lookup "market" = some m.toVal
    ∧ (main.collect_all o g m s ts).lookup "social" = some s.toVal
    ∧ (main.collect_all o g m s ts).lookup "collected_at" = some (.str ts) :=
  ⟨rfl, rfl, rfl, rfl, rfl, rfl⟩

/-- The TVL history response behind C9: 14 daily points, the oldest (the
14-days-ago value, `recent[-14]`) at 4,500,000,000 and the latest at
5,000,000,000. -/
def historyC9 : Val :=
  .list ((List.range 14).map (fun i =>
    .dict [("date", .num (Q.ofInt (i + 1))),
           ("tvl", .num (Q.ofInt (if i = 0 then 4500000000
                                  else if i = 13 then 5000000000 else 4600000000)))]))

/-- The TVL record `get_solana_tvl_history` computes from a current TVL of
5,000,000,000 and a 14-day-ago TVL of 4,500,000,000
(onchain.py lines 31-38). -/
def tvlC9 : TvlRecord :=
  { current_tvl := Q.ofInt 5000000000
    tvl_14d_ago := Q.ofInt 4500000000
    tvl_30d_ago := Q.ofInt 4500000000
    change_14d_pct := round2 ((((Q.ofInt 5000000000).sub (Q.ofInt 4500000000)).div
      (Q.ofInt 4500000000)).mul (Q.ofInt 100))
    change_30d_pct := round2 ((((Q.ofInt 5000000000).sub (Q.ofInt 4500000000)).div
      (Q.ofInt 4500000000)).mul (Q.ofInt 100))
    data_points := [] }

def bundleC9 : SignalBundle :=
  ⟨⟨some tvlC9, [], [], none, none, "T"⟩, gEmpty, mEmpty, sEmpty, "T"⟩

/-- C9: on the 5,000,000,000 / 4,500,000,000 history the collector stores
`change_14d_pct = 11.11` (= 1111/100, Python `round((500/4500)*100, 2)`),
and the digest's 14-day-change line (the third digest part, an
always-rendering one) renders it as `+11.1%` — one decimal, explicit
sign. -/
theorem c9_change_line :
    ((onchain.get_solana_tvl_history (some historyC9)).bind
        (fun v => v.getItem "change_14d_pct")) = .ok (Val.num (Q.mk 1111 100))
    ∧ (analyzer.digestParts bundleC9).getD 2 (.ok "") = .ok "  14d change: +11.1%" :=
  ⟨rfl, rfl⟩

/-- The digest of the all-empty bundle (a successful rendering). -/
def digestEmptyStr : String :=
  (analyzer.build_signal_digest bundleEmpty).toOption.getD ""

/-- C1 counterexample: with the service available and a response text that
does not parse, the report `analyze` returns carries no raw-response field
at all (and has `narratives = []` — it is the plain digest fallback), so
the claimed raw-response field equal to the original response text is
absent. -/
theorem c1_counterexample :
    (analyzer.okFields (analyzer.analyze bundleEmpty "N" envOk "not json"
        (fun _ => none))).lookup "raw_response" = none
    ∧ (analyzer.okFields (analyzer.analyze bundleEmpty "N" envOk "not json"
        (fun _ => none))).lookup "narratives" = some (Val.list []) :=
  ⟨rfl, rfl⟩

/-- C1 (amended): on a parse failure the inner `analyze_with_claude` does
return a dict whose only field `raw_response` holds the fence-extracted
response text (the original text when no code fences are present) — but
`analyze` discards that dict (it has no `narratives` key) and returns the
ordinary fallback report: no raw-response field, `narratives = []`, and
`raw_digest` holding the digest, exactly as in the no-credential case.
(`hs` as in C6: the digest is synthesized before any branch.) -/
theorem c1_parse_failure (b : SignalBundle) (nowIso : String) (env : analyzer.Env)
    (text : String) (loads : String → Option (List (String × Val))) (s : String)
    (hs : analyzer.build_signal_digest b = .ok s)
    (h1 : env.anthropic_installed = true)
    (h2 : (env.api_key.getD "").isEmpty = false)
    (h3 : loads (analyzer.extract_block text) = none) :
    analyzer.analyze_with_claude env text loads
        = [("raw_response", Val.str (analyzer.extract_block text))]
    ∧ (analyzer.okFields (analyzer.analyze b nowIso env text loads)).lookup
        "raw_response" = none
    ∧ (analyzer.okFields (analyzer.analyze b nowIso env text loads)).lookup
        "raw_digest" = some (.str s)
    ∧ (analyzer.okFields (analyzer.analyze b nowIso env text loads)).lookup
        "narratives" = some (Val.list []) := by
  have hwc : analyzer.analyze_with_claude env text loads
      = [("raw_response", Val.str (analyzer.extract_block text))] := by
    unfold analyzer.analyze_with_claude
    simp [h1, h2, h3]
  refine ⟨hwc, ?_, ?_, ?_⟩ <;>
    simp [analyzer.analyze, hs, hwc, analyzer.fallbackReport, analyzer.okFields,
      List.lookup]

/-- C1 witness: a concrete unfenced, unparseable response. -/
theorem c1_parse_failure_witness :
    (analyzer.build_signal_digest bundleEmpty = .ok digestEmptyStr
      ∧ envOk.anthropic_installed = true
      ∧ (envOk.api_key.getD "").isEmpty = false
      ∧ (fun _ => (none : Option (List (String × Val))))
          (analyzer.extract_block "oops") = none)
    ∧ (analyzer.analyze_with_claude envOk "oops" (fun _ => none)
        = [("raw_response", Val.str (analyzer.extract_block "oops"))]
      ∧ (analyzer.okFields (analyzer.analyze bundleEmpty "N" envOk "oops"
          (fun _ => none))).lookup "raw_response" = none
      ∧ (analyzer.okFields (analyzer.analyze bundleEmpty "N" envOk "oops"
          (fun _ => none))).lookup "raw_digest" = some (.str digestEmptyStr)
      ∧ (analyzer.okFields (analyzer.analyze bundleEmpty "N" envOk "oops"
          (fun _ => none))).lookup "narratives" = some (Val.list [])) :=
  ⟨⟨rfl, rfl, rfl, rfl⟩,
   c1_parse_failure bundleEmpty "N" envOk "oops" (fun _ => none) digestEmptyStr
     rfl rfl rfl rfl⟩

/-- C2: every report `analyze` returns carries
`meta.signals_analyzed` equal to the aggregator-computed count — the sum
of the lengths of the twelve sequence-valued fields of the four category
records — whatever count the parsed response itself carried (the accepted
branch overwrites the service-supplied `meta.signals_analyzed`). -/
theorem c2_signals_analyzed (b : SignalBundle) (nowIso : String)
    (env : analyzer.Env) (text : String)
    (loads : String → Option (List (String × Val))) (d : List (String × Val))
    (h : analyzer.analyze b nowIso env text loads = .ok d) :
    analyzer.metaLookup d "signals_analyzed"
        = some (Val.num (Q.ofInt (analyzer.count_signals
            (main.collect_all b.onchain b.github b.market b.social b.collected_at))))
    ∧ analyzer.count_signals
          (main.collect_all b.onchain b.github b.market b.social b.collected_at)
        = b.onchain.top_protocols.length + b.onchain.yields.length
          + b.github.trending_new.length + b.github.most_active.length
          + b.github.high_star.length + b.github.ecosystem_topics.length
          + b.market.ecosystem_tokens.length + b.market.trending.length
          + b.market.categories.length
          + b.social.ecosystem_articles.length + b.social.news_articles.length
          + b.social.governance.length := by
  constructor
  · simp only [analyzer.analyze] at h
    split at h
    · exact absurd h (by simp)
    · split at h
      · split at h
        · rename_i mf hmf
          simp only [Except.ok.injEq] at h
          subst h
          unfold analyzer.metaLookup
          rw [lookup_setKey_self]
          exact lookup_setKey_self mf "signals_analyzed" _
        · exact absurd h (by simp)
      · simp only [Except.ok.injEq] at h
        subst h
        simp [analyzer.metaLookup, analyzer.fallbackReport, List.lookup]
  · exact count_signals_collect_all b.onchain b.github b.market b.social b.collected_at

def loadsC2 : String → Option (List (String × Val)) :=
  fun s =>
    if s = "x" then
      some [("narratives", Val.list []),
            ("meta", Val.dict [("signals_analyzed", Val.num (Q.ofInt 999))])]
    else none

/-- C2 witness: a parsed response claiming 999 analyzed signals is
overwritten with the aggregator count (0 for the empty bundle). -/
theorem c2_signals_analyzed_witness :
    analyzer.analyze bundleEmpty "N" envOk "x" loadsC2
        = .ok [("narratives", Val.list []),
               ("meta", Val.dict [("signals_analyzed", Val.num (Q.ofInt 0))])]
    ∧ analyzer.metaLookup
        [("narratives", Val.list []),
         ("meta", Val.dict [("signals_analyzed", Val.num (Q.ofInt 0))])]
        "signals_analyzed" = some (Val.num (Q.ofInt 0)) :=
  ⟨rfl,
   (c2_signals_analyzed bundleEmpty "N" envOk "x" loadsC2
      [("narratives", Val.list []),
       ("meta", Val.dict [("signals_analyzed", Val.num (Q.ofInt 0))])] rfl).1⟩

/-- C4 counterexample: a decoded TVL-history response whose single entry
lacks the `tvl` field makes `recent[-1]["tvl"]` raise `KeyError`, which
propagates out of `onchain.collect` — the adapter does not return a
CategoryRecord for this upstream response value. -/
theorem c4_counterexample :
    onchain.collect (some (Val.list [Val.dict [("date", Val.num (Q.ofInt 1))]]))
      none none none none "T" = .error "KeyError: tvl" :=
  rfl

/-- C4 (amended): each adapter returns a CategoryRecord without raising
whenever its upstream fetches fail at the transport/HTTP/JSON-decode level
(modelled by `none`), degrading each field to an empty or error-marked
value; the social adapter never raises for any input because every helper
catches its own failures.  (By `c4_counterexample`, a successfully decoded
but malformed response can still raise out of the onchain — and likewise
the market and github — adapters.) -/
theorem c4_adapters_degrade :
    (∀ ts : String, onchain.collect none none none none none ts
        = .ok (Val.dict
          [("tvl", .dict [("error", .str "Failed to fetch TVL")]),
           ("top_protocols", .list []), ("yields", .list []),
           ("stablecoins", .dict [("error", .str "Failed to fetch stablecoin data")]),
           ("network", .dict [("error", .str "RequestError")]),
           ("collected_at", .str ts)]))
    ∧ (∀ ts : String, market.collect none none none none ts
        = .ok (Val.dict
          [("sol", .dict [("error", .str "Failed to fetch SOL data")]),
           ("ecosystem_tokens", .list []), ("trending", .list []),
           ("categories", .list []), ("collected_at", .str ts)]))
    ∧ (∀ ts : String, github_signals.collect none none none (fun _ => none) ts
        = .ok (Val.dict
          [("trending_new", .list []), ("most_active", .list []),
           ("high_star", .list []),
           ("ecosystem_topics", .list (github_signals.topics_list.map (fun t =>
              Val.dict [("topic", .str (pyReplace t "solana " "")),
                        ("repo_count", .num (Q.ofInt 0)),
                        ("top_repos", .list []),
                        ("total_stars", .num (Q.ofInt 0))]))),
           ("collected_at", .str ts)]))
    ∧ (∀ (rssF atomF newsF : String → Option (List Article)) (govF : Option Val)
        (ts : String),
        social.collect rssF atomF newsF govF ts
          = { ecosystem_articles := social.get_ecosystem_articles rssF atomF
              news_articles := social.get_news_articles newsF
              governance := social.get_governance_proposals govF
              collected_at := ts }) :=
  ⟨fun _ => rfl, fun _ => rfl, fun _ => rfl, fun _ _ _ _ _ => rfl⟩
